import Mathlib

/-!
Verification development for the gateway data plane: the route table
(servers, clusters, binds, APIs, routings), the server health state,
request selection, and the proxy response-assembly path, embedded from the
Go sources (package model and package proxy).

Go maps are embedded as association lists keyed by strings (one concrete
iteration order standing for Go's unspecified one), Go ints as Int with
Int.tdiv for the truncating division, fallible operations as Except, and
effectful steps (health probes, channel sends) as explicit parameters and
returned event lists.
-/

namespace Gateway

/-- Association-list read, modelling a Go map read. -/
def assocFind {α : Type} (l : List (String × α)) (k : String) : Option α :=
  (l.find? (fun p => p.1 == k)).map (fun p => p.2)

/-- Association-list write, modelling Go map assignment: replaces the binding
when the key is present, otherwise appends it. -/
def assocInsert {α : Type} (l : List (String × α)) (k : String) (v : α) :
    List (String × α) :=
  if (assocFind l k).isSome then l.map (fun p => if p.1 == k then (k, v) else p)
  else l ++ [(k, v)]

/-- Association-list removal, modelling a Go map delete. -/
def assocErase {α : Type} (l : List (String × α)) (k : String) : List (String × α) :=
  l.filter (fun p => p.1 != k)

/-- Server status (part_000/part_001 model package): Down = 0, Up = 1. -/
inductive Status where
  | Down
  | Up
deriving DecidableEq, Repr

/-- Circuit state: CircuitOpen = 0 (admitting), CircuitHalf = 1,
CircuitClose = 2 (rejecting). -/
inductive Circuit where
  | CircuitOpen
  | CircuitHalf
  | CircuitClose
deriving DecidableEq, Repr

/-- Default duration to check server, in seconds. -/
def DefaultCheckDurationInSeconds : Int := 5

/-- Default timeout to check server, in seconds. -/
def DefaultCheckTimeoutInSeconds : Int := 3

/-- Server entity (part_001). Upper-case fields are the exported,
JSON-serialized ones; lower-case fields are the unexported runtime state
(the httpClient and the mutex are not modelled). -/
structure Server where
  Schema : String := ""
  Addr : String := ""
  External : Bool := false
  CheckPath : String := ""
  CheckResponsedBody : String := ""
  CheckDuration : Int := 0
  CheckTimeout : Int := 0
  Status : Gateway.Status := Gateway.Status.Down
  MaxQPS : Int := 0
  HalfToOpenSeconds : Int := 0
  HalfTrafficRate : Int := 0
  HalfToOpenSucceedRate : Int := 0
  HalfToOpenCollectSeconds : Int := 0
  OpenToCloseFailureRate : Int := 0
  OpenToCloseCollectSeconds : Int := 0
  BindClusters : List String := []
  checkFailCount : Int := 0
  prevStatus : Gateway.Status := Gateway.Status.Down
  useCheckDuration : Int := 0
  circuit : Circuit := Circuit.CircuitOpen
  checkStopped : Bool := false
deriving DecidableEq, Repr

/-- Wrap-around of Go 64-bit integer arithmetic, embedded as Int with an
explicit reduction modulo 2 to the 64th into the signed range. -/
def wrap64 (x : Int) : Int :=
  (x + 2 ^ 63) % 2 ^ 64 - 2 ^ 63

/-- Server.fail: on a failed check, bump the failure count and grow the
check interval by half. Go int arithmetic wraps on overflow (wrap64) and
its division truncates toward zero (Int.tdiv); the division itself cannot
overflow for a divisor of 2. -/
def Server.fail (s : Server) : Server :=
  { s with checkFailCount := wrap64 (s.checkFailCount + 1),
           useCheckDuration := wrap64 (s.useCheckDuration + Int.tdiv s.useCheckDuration 2) }

/-- Server.reset: on a successful check, clear the failure count and restore
the configured check interval. -/
def Server.reset (s : Server) : Server :=
  { s with checkFailCount := 0, useCheckDuration := s.CheckDuration }

/-- Server.changeTo: records the previous status and sets the new one. -/
def Server.changeTo (s : Server) (status : Gateway.Status) : Server :=
  { s with prevStatus := s.Status, Status := status }

/-- Server.statusChanged: whether the last changeTo altered the status. -/
def Server.statusChanged (s : Server) : Bool :=
  s.prevStatus != s.Status

/-- Server.stopCheck. -/
def Server.stopCheck (s : Server) : Server :=
  { s with checkStopped := true }

/-- Server.init: opens the circuit and clears the stop flag (the HTTP client
and the mutex it also creates are not modelled). -/
def Server.init (s : Server) : Server :=
  { s with circuit := Circuit.CircuitOpen, checkStopped := false }

theorem wrap64_eq_self (x : Int) (h1 : -(2 ^ 63) ≤ x) (h2 : x < 2 ^ 63) :
    wrap64 x = x := by
  unfold wrap64
  rw [show ((2:Int) ^ 64) = 18446744073709551616 by norm_num,
      show ((2:Int) ^ 63) = 9223372036854775808 by norm_num]
  rw [show ((2:Int) ^ 63) = 9223372036854775808 by norm_num] at h1 h2
  omega

/-- Result of iterating Server.fail over k consecutive failed checks with no
intermediate success. -/
def Server.failN (s : Server) : Nat → Server
  | 0 => s
  | Nat.succ k => (s.failN k).fail

/-- JSON object produced by Server.Marshal: one member per json-tagged field
of Server; unexported fields are not serialized. Marshal/Unmarshal on the
same struct type restore every tagged field (omitempty omits zero values,
which decode back to the zero value), so the wire format is embedded
field-wise. -/
structure ServerData where
  schema : String
  addr : String
  external : Bool
  checkPath : String
  checkResponsedBody : String
  checkDuration : Int
  checkTimeout : Int
  status : Gateway.Status
  maxQPS : Int
  halfToOpenSeconds : Int
  halfTrafficRate : Int
  halfToOpenSucceedRate : Int
  halfToOpenCollectSeconds : Int
  openToCloseFailureRate : Int
  openToCloseCollectSeconds : Int
  bindClusters : List String
deriving DecidableEq, Repr

/-- Server.Marshal: json.Marshal of the exported fields. -/
def Server.Marshal (s : Server) : ServerData :=
  { schema := s.Schema
    addr := s.Addr
    external := s.External
    checkPath := s.CheckPath
    checkResponsedBody := s.CheckResponsedBody
    checkDuration := s.CheckDuration
    checkTimeout := s.CheckTimeout
    status := s.Status
    maxQPS := s.MaxQPS
    halfToOpenSeconds := s.HalfToOpenSeconds
    halfTrafficRate := s.HalfTrafficRate
    halfToOpenSucceedRate := s.HalfToOpenSucceedRate
    halfToOpenCollectSeconds := s.HalfToOpenCollectSeconds
    openToCloseFailureRate := s.OpenToCloseFailureRate
    openToCloseCollectSeconds := s.OpenToCloseCollectSeconds
    bindClusters := s.BindClusters }

/-- UnMarshalServer (part_001): json.Unmarshal into a zero Server (unexported
fields keep their zero values), then fill the default check timeout when it
is zero. -/
def UnMarshalServer (data : ServerData) : Server :=
  let v : Server :=
    { Schema := data.schema
      Addr := data.addr
      External := data.external
      CheckPath := data.checkPath
      CheckResponsedBody := data.checkResponsedBody
      CheckDuration := data.checkDuration
      CheckTimeout := data.checkTimeout
      Status := data.status
      MaxQPS := data.maxQPS
      HalfToOpenSeconds := data.halfToOpenSeconds
      HalfTrafficRate := data.halfTrafficRate
      HalfToOpenSucceedRate := data.halfToOpenSucceedRate
      HalfToOpenCollectSeconds := data.halfToOpenCollectSeconds
      OpenToCloseFailureRate := data.openToCloseFailureRate
      OpenToCloseCollectSeconds := data.openToCloseCollectSeconds
      BindClusters := data.bindClusters }
  if v.CheckTimeout = 0 then { v with CheckTimeout := DefaultCheckTimeoutInSeconds }
  else v

/-- Request shape seen by the matching predicates (method and URI suffice for
the modelled predicates). -/
structure Req where
  method : String := ""
  uri : String := ""
deriving DecidableEq, Repr

/-- API node: the cluster it targets, the URL rewrite pattern, and the
attribute name used on the merge path. -/
structure Node where
  ClusterName : String := ""
  AttrName : String := ""
  Rewrite : String := ""
deriving DecidableEq, Repr

/-- API entity. Modelled from the spec: the matching of the (url, method)
pattern plus matchRule (api.go is absent from src/) is carried as the
predicate field matchesReq (the name matches is reserved in Lean); Mock carries the rendered mock body when set. -/
structure API where
  URL : String := ""
  Method : String := ""
  Nodes : List Node := []
  Mock : Option String := none
  matchesReq : Req → Bool := fun _ => false

/-- Routing entity. Modelled from the spec: the cfg predicate on requests
(routing.go is absent from src/) is carried as the field Matches. -/
structure Routing where
  ID : String := ""
  ClusterName : String := ""
  Matches : Req → Bool := fun _ => false

/-- Cluster entity: its name and the addresses of its active (Up) bound
servers (cluster.go is absent from src/; the membership list follows the
spec, which makes activeServers the Up subset of the bound servers). -/
structure Cluster where
  Name : String := ""
  svrs : List String := []
deriving DecidableEq, Repr

/-- Modelled from the spec: Cluster.Select (cluster.go absent from src/)
returns the empty address when no active server exists, otherwise one
active address chosen by the load-balance strategy (the spec leaves the
strategy configurable; the first active server stands for it here). -/
def Cluster.Select (c : Cluster) (req : Req) : String :=
  match req, c.svrs with
  | _, [] => ""
  | _, a :: _ => a

/-- Modelled from the spec: Cluster.bind (cluster.go absent from src/) adds
the server to the active set when it is not already there. -/
def Cluster.bind (c : Cluster) (addr : String) : Cluster :=
  if c.svrs.contains addr then c else { c with svrs := c.svrs ++ [addr] }

/-- Modelled from the spec: Cluster.unbind (cluster.go absent from src/)
removes the server from the active set. -/
def Cluster.unbind (c : Cluster) (addr : String) : Cluster :=
  { c with svrs := c.svrs.filter (fun a => a != addr) }

/-- Backend HTTP response (the parts of fasthttp.Response the proxy reads:
status code, headers, body). -/
structure Resp where
  statusCode : Nat := 200
  headers : List (String × String) := []
  body : String := ""
deriving DecidableEq, Repr

/-- RouteResult (part_001): one selection outcome per node, later filled by
the proxy with the backend outcome. Err holds the Go error text. -/
structure RouteResult where
  API : Gateway.API
  Node : Gateway.Node
  Svr : Option Server := none
  Err : Option String := none
  Code : Nat := 0
  Res : Option Resp := none
  Merge : Bool := false

/-- Errors returned by the RouteTable mutators (part_001). -/
inductive GatewayErr where
  | ErrServerExists
  | ErrClusterExists
  | ErrBindExists
  | ErrAPIExists
  | ErrRoutingExists
  | ErrServerNotFound
  | ErrClusterNotFound
  | ErrBindNotFound
  | ErrAPINotFound
  | ErrRoutingNotFound
deriving DecidableEq, Repr

/-- RouteTable (part_001). The maps are association lists; mapping is the
reverse index serverAddr to bound cluster names (the Go version stores
cluster pointers aliasing the clusters map, embedded here by name);
analysis is the set of addresses holding analyzer state; checkTimers is
the set of time-wheel entries, keyed by address. -/
structure RouteTable where
  clusters : List (String × Cluster) := []
  svrs : List (String × Server) := []
  mapping : List (String × List String) := []
  apis : List (String × Gateway.API) := []
  routings : List (String × Routing) := []
  analysis : List String := []
  checkTimers : List String := []

/-- Modelled from the spec: getAPIKey (api.go absent from src/) follows the
registry layout /apis/<url>-<method>. -/
def getAPIKey (url method : String) : String :=
  url ++ "-" ++ method

/-- RouteTable.AddNewAPI (part_001:460-477). NOTE, as in the source: the
existence check reads key api.URL while the store writes key
getAPIKey api.URL api.Method (api.Parse only compiles the pattern and is
not modelled). -/
def RouteTable.AddNewAPI (r : RouteTable) (api : Gateway.API) :
    Except GatewayErr RouteTable :=
  if (assocFind r.apis api.URL).isSome then Except.error GatewayErr.ErrAPIExists
  else Except.ok { r with apis := assocInsert r.apis (getAPIKey api.URL api.Method) api }

/-- RouteTable.DeleteAPI (part_001): keyed by getAPIKey. -/
def RouteTable.DeleteAPI (r : RouteTable) (url method : String) :
    Except GatewayErr RouteTable :=
  if (assocFind r.apis (getAPIKey url method)).isSome then
    Except.ok { r with apis := assocErase r.apis (getAPIKey url method) }
  else Except.error GatewayErr.ErrAPINotFound

/-- Time-wheel AddWithID keyed by address: key-replacing, so the entry set
just gains the address when absent. -/
def addTimer (l : List String) (addr : String) : List String :=
  if l.contains addr then l else l ++ [addr]

/-- Server.check outcome application plus the transition of
RouteTable.addToCheck (part_001:1004-1023): the deferred reset/fail of
Server.check applies first, then changeTo Up on success or Down on
failure. The HTTP probe itself is the Bool parameter. -/
def addToCheckServer (svr : Server) (probe : Bool) : Server :=
  let svr := if probe then svr.reset else svr.fail
  if probe then svr.changeTo Status.Up else svr.changeTo Status.Down

/-- RouteTable.AddNewServer (part_001:567-607): reject an existing address;
force status and prevStatus to Down and the working check interval to the
configured one; create the empty reverse-mapping entry; init the server;
non-external servers run a first check and enter the time wheel, external
ones are changed to Up; the analyzer gains state for the address (the
recent-count windows it also registers are not modelled beyond presence). -/
def RouteTable.AddNewServer (r : RouteTable) (svr : Server) (probe : Bool) :
    Except GatewayErr RouteTable :=
  if (assocFind r.svrs svr.Addr).isSome then Except.error GatewayErr.ErrServerExists
  else
    let svr := { svr with prevStatus := Status.Down, Status := Status.Down,
                          useCheckDuration := svr.CheckDuration }
    let svr := svr.init
    let mapping := assocInsert r.mapping svr.Addr []
    let checked :=
      if !svr.External then (addToCheckServer svr probe, addTimer r.checkTimers svr.Addr)
      else (svr.changeTo Status.Up, r.checkTimers)
    let analysis := if r.analysis.contains svr.Addr then r.analysis
                    else r.analysis ++ [svr.Addr]
    Except.ok { r with svrs := assocInsert r.svrs checked.1.Addr checked.1,
                       mapping := mapping,
                       checkTimers := checked.2,
                       analysis := analysis }

/-- RouteTable.DeleteServer (part_001:536-564): look the server up, remove it
from the server map, stop and cancel its check (removeFromCheck is
tw.Cancel on the address), drop its reverse-mapping entry, and unbind it
from every cluster that entry listed. The analyzer is not touched. -/
def RouteTable.DeleteServer (r : RouteTable) (serverAddr : String) :
    Except GatewayErr RouteTable :=
  match assocFind r.svrs serverAddr with
  | none => Except.error GatewayErr.ErrServerNotFound
  | some svr =>
    let svr := svr.stopCheck
    let binded := (assocFind r.mapping svr.Addr).getD []
    Except.ok { r with
      svrs := assocErase r.svrs serverAddr,
      checkTimers := r.checkTimers.filter (fun a => a != svr.Addr),
      mapping := assocErase r.mapping svr.Addr,
      clusters := r.clusters.map (fun p =>
        if binded.contains p.1 then (p.1, p.2.unbind svr.Addr) else p) }

/-- RouteTable.check (part_001:1025-1033), with the probe outcome a
parameter; returns the updated table and the servers sent to evtChan.
The none result models the nil dereference when the address is absent
from the server map. -/
def RouteTable.check (r : RouteTable) (addr : String) (probe : Bool) :
    Option (RouteTable × List Server) :=
  match assocFind r.svrs addr with
  | none => none
  | some svr =>
    if !svr.checkStopped then
      let svr' := addToCheckServer svr probe
      some ({ r with svrs := assocInsert r.svrs svr'.Addr svr',
                     checkTimers := addTimer r.checkTimers svr'.Addr }, [svr'])
    else
      some (r, [svr])

/-- One iteration of the RouteTable.changed worker (part_001:1035-1053) on a
server received from evtChan: only when the status changed, rebind or
unbind it on every cluster its reverse-mapping entry lists. -/
def RouteTable.changedStep (r : RouteTable) (svr : Server) : RouteTable :=
  if svr.statusChanged then
    let binded := (assocFind r.mapping svr.Addr).getD []
    if svr.Status = Status.Up then
      { r with clusters := r.clusters.map (fun p =>
          if binded.contains p.1 then (p.1, p.2.bind svr.Addr) else p) }
    else
      { r with clusters := r.clusters.map (fun p =>
          if binded.contains p.1 then (p.1, p.2.unbind svr.Addr) else p) }
  else r

/-- RouteTable.selectClusterByRouting (part_001:774-785): the first routing
whose predicate matches redirects to its cluster (possibly absent),
otherwise the source cluster stands. -/
def RouteTable.selectClusterByRouting (r : RouteTable) (req : Req)
    (src : Option Cluster) : Option Cluster :=
  match r.routings.find? (fun p => p.2.Matches req) with
  | some p => assocFind r.clusters p.2.ClusterName
  | none => src

/-- RouteTable.doSelectServer (part_001:791-795): select an address from the
cluster and look it up in the server map. A missing cluster selects no
address (the spec invariant: a node referencing a missing cluster yields
a selection miss, not a crash; Cluster.Select is absent from src/). -/
def RouteTable.doSelectServer (r : RouteTable) (req : Req)
    (cluster : Option Cluster) : Option Server :=
  let addr := match cluster with
    | none => ""
    | some c => c.Select req
  assocFind r.svrs addr

/-- RouteTable.selectServer (part_001:787-789). -/
def RouteTable.selectServer (r : RouteTable) (req : Req)
    (cluster : Option Cluster) : Option Server :=
  r.doSelectServer req cluster

/-- RouteTable.Select (part_001:751-772): iterate the APIs; for each one that
matches, rebuild the whole result list from its nodes (the loop does not
break, so a later matching API overwrites an earlier one). -/
def RouteTable.Select (r : RouteTable) (req : Req) : List RouteResult :=
  r.apis.foldl
    (fun results p =>
      if p.2.matchesReq req then
        p.2.Nodes.map (fun node =>
          { API := p.2, Node := node,
            Svr := r.selectServer req
              (r.selectClusterByRouting req (assocFind r.clusters node.ClusterName)) })
      else results)
    []

/-- ErrPrefixRequestCancel (proxy.go): error-text prefix marking a client
cancel. -/
def ErrPrefixRequestCancel : String := "request canceled"

/-- MergeContentType (proxy.go): content type of the merged response. -/
def MergeContentType : String := "application/json; charset=utf-8"

/-- MergeRemoveHeaders (proxy.go:31-40): headers removed from each backend
response on the merge path. -/
def MergeRemoveHeaders : List String := [ "Content-Length", "Content-Type", "Date" ]

/-- Response written to the requesting client (fasthttp.RequestCtx response
side: status code, headers with the content type among them, body). -/
structure CtxResponse where
  statusCode : Nat := 200
  headers : List (String × String) := []
  body : String := ""
deriving DecidableEq, Repr

/-- fasthttp ResponseHeader.Del: removes the named header. -/
def headerDel (hs : List (String × String)) (name : String) : List (String × String) :=
  hs.filter (fun p => p.1 != name)

/-- fasthttp ResponseHeader.CopyTo: resets the destination and copies the
source into it, so the destination becomes the source. -/
def headerCopyTo (src dst : List (String × String)) : List (String × String) :=
  src

/-- fasthttp header set (SetContentType is a set of the Content-Type
header). -/
def headerSet (hs : List (String × String)) (name value : String) :
    List (String × String) :=
  assocInsert hs name value

/-- Deletion of every MergeRemoveHeaders entry from one backend response
header, the inner loop of the merge path. -/
def stripMergeHeaders (hs : List (String × String)) : List (String × String) :=
  MergeRemoveHeaders.foldl (fun acc h => headerDel acc h) hs

/-- Placeholder for a nil fasthttp response; the theorems only dereference it
under hypotheses that rule the nil case out. -/
def dfltResp : Resp := {}

/-- Merge-path tail of Proxy.ReverseProxyHandler (proxy.go:272-297): per
result, strip MergeRemoveHeaders and copy the rest onto the client
response header; then set the merge content type, status 200, and write
the JSON object of attrName/raw-body members with commas between them. -/
def mergeCompose (results : List RouteResult) : CtxResponse :=
  let hdrs := results.foldl
    (fun agg r => headerCopyTo (stripMergeHeaders (r.Res.getD dfltResp).headers) agg) []
  let hdrs := headerSet hdrs "Content-Type" MergeContentType
  let count := results.length
  let body := results.enum.foldl
    (fun acc p =>
      acc ++ "\"" ++ p.2.Node.AttrName ++ "\":" ++ (p.2.Res.getD dfltResp).body ++
        (if p.1 < count - 1 then "," else "")) "\x7b"
  { statusCode := 200, headers := hdrs, body := body ++ "\x7d" }

/-- Response-assembly part of Proxy.ReverseProxyHandler (proxy.go:218-297),
given the per-node results after the backend calls completed: empty
selection answers 404; the first errored result answers its API mock when
one is set (API.RenderMock is modelled from the spec as emitting the mock
body) or else its code; a single clean result is written through; more
than one clean result is merged. -/
def ReverseProxyHandlerRespond (results : List RouteResult) : CtxResponse :=
  if results.isEmpty then { statusCode := 404, headers := [], body := "" }
  else
    let merge := decide (1 < results.length)
    match results.find? (fun r => r.Err.isSome) with
    | some r =>
      match r.API.Mock with
      | some m => { statusCode := 200, headers := [], body := m }
      | none => { statusCode := r.Code, headers := [], body := "" }
    | none =>
      if !merge then
        match results with
        | [] => { statusCode := 404, headers := [], body := "" }
        | r :: _ =>
          { statusCode := (r.Res.getD dfltResp).statusCode, headers := [],
            body := (r.Res.getD dfltResp).body }
      else mergeCompose results

/-- strings.HasPrefix, embedded on the character sequence of the strings. -/
def hasPrefixStr (p s : String) : Bool :=
  p.data.isPrefixOf s.data

/-- Backend-call outcome handling of Proxy.doProxy (proxy.go:358-380): store
the response on the result; on a transport error or a status of 500 or
more, set the result code (503 on transport error, the backend code
otherwise) and run the post-error filters unless the error text carries
the cancel prefix. The returned Bool says whether the post-error filters
ran. -/
def doProxyAfterCall (result : RouteResult) (err : Option String) (res : Option Resp) :
    RouteResult × Bool :=
  let result := { result with Res := res }
  if err.isSome || decide (500 ≤ (res.getD dfltResp).statusCode) then
    let resCode := if err.isSome then 503 else (res.getD dfltResp).statusCode
    let runPostErr := err.isNone || !(hasPrefixStr ErrPrefixRequestCancel (err.getD ""))
    ({ result with Err := err, Code := resCode }, runPostErr)
  else
    (result, false)

/-- Modelled from the spec: the ANALYSIS filter PostErr hook records one
failure for the backend (the filter sources are absent from src/). -/
def analysisFailure (failures : Nat) : Nat := failures + 1

/-- Failure counter of a backend after doProxy handled the call: bumped by
the post-error filters only when they run. -/
def doProxyFailuresAfter (failures : Nat) (runPostErr : Bool) : Nat :=
  if runPostErr then analysisFailure failures else failures

/-- Spec-side text of one member of the merged JSON object: the quoted
attribute name, a colon, the raw backend body. -/
def mergePiece (r : RouteResult) : String :=
  "\"" ++ r.Node.AttrName ++ "\":" ++ (r.Res.getD dfltResp).body

/-- Comma-separated join of the per-result pieces, the spec-side shape of
the merged body. -/
def joinComma (piece : RouteResult → String) : List RouteResult → String
  | [] => ""
  | [r] => piece r
  | r :: rest => piece r ++ "," ++ joinComma piece rest

/-- Spec-side body of the merge response: the JSON object text over the
attribute names and the raw backend bodies. -/
def mergeSpecBody (results : List RouteResult) : String :=
  joinComma mergePiece results

/-- Collected results built from one API by RouteTable.Select: one RouteResult
per node. -/
def apiRouteResults (r : RouteTable) (req : Req) (api : Gateway.API) :
    List RouteResult :=
  api.Nodes.map (fun node =>
    { API := api, Node := node,
      Svr := r.selectServer req
        (r.selectClusterByRouting req (assocFind r.clusters node.ClusterName)) })

theorem find?_map_replace {α : Type} (k : String) (v : α) :
    ∀ (l : List (String × α)), (l.find? (fun p => p.1 == k)).isSome →
      ((l.map (fun p => if p.1 == k then (k, v) else p)).find?
        (fun p => p.1 == k)) = some (k, v) := by
  intro l
  induction l with
  | nil => intro h; simp [List.find?] at h
  | cons hd t ih =>
    intro h
    by_cases hk : (hd.1 == k) = true
    · simp only [List.map_cons, if_pos hk]
      exact List.find?_cons_of_pos _ (by simp)
    · rw [List.find?_cons_of_neg _ (by simpa using hk)] at h
      simp only [List.map_cons, if_neg hk]
      rw [List.find?_cons_of_neg _ (by simpa using hk)]
      exact ih h

theorem assocFind_insert_self {α : Type} (l : List (String × α)) (k : String) (v : α) :
    assocFind (assocInsert l k v) k = some v := by
  unfold assocInsert
  by_cases h : (assocFind l k).isSome
  · rw [if_pos h]
    unfold assocFind at h ⊢
    have hf : (l.find? (fun p => p.1 == k)).isSome := by
      cases hfind : l.find? (fun p => p.1 == k) <;> rw [hfind] at h <;> simp at h ⊢
    rw [find?_map_replace k v l hf]
    rfl
  · rw [if_neg h]
    unfold assocFind at h ⊢
    have hn : l.find? (fun p => p.1 == k) = none := by
      cases hf : l.find? (fun p => p.1 == k) <;> rw [hf] at h <;> simp at h ⊢
    rw [List.find?_append, hn]
    simp [List.find?]

theorem assocFind_erase_self {α : Type} (l : List (String × α)) (k : String) :
    assocFind (assocErase l k) k = none := by
  unfold assocFind assocErase
  rw [List.find?_eq_none.mpr]
  · rfl
  · intro p hp
    rcases List.mem_filter.mp hp with ⟨_, hne⟩
    simpa using hne

theorem foldl_if_find_last {α β : Type} (P : α → Bool) (F : α → β) :
    ∀ (l : List α) (acc : β),
      l.foldl (fun res x => if P x then F x else res) acc =
        ((l.reverse.find? P).map F).getD acc := by
  intro l
  induction l with
  | nil => intro acc; rfl
  | cons x t ih =>
    intro acc
    rw [List.foldl_cons, ih]
    rw [List.reverse_cons, List.find?_append]
    cases h : t.reverse.find? P <;> cases hP : P x <;>
      simp [List.find?, hP, Option.or]

theorem foldl_replace_last {α β : Type} (g : α → β) :
    ∀ (l : List α) (acc : β),
      l.foldl (fun _agg x => g x) acc = ((l.getLast?).map g).getD acc
  | [], _acc => rfl
  | [_], _acc => rfl
  | x :: y :: t, acc => foldl_replace_last g (y :: t) (g x)

theorem joinComma_cons2 (piece : RouteResult → String) (r s : RouteResult)
    (t : List RouteResult) :
    joinComma piece (r :: s :: t) = piece r ++ "," ++ joinComma piece (s :: t) := rfl

theorem merge_body_fold (n : Nat) :
    ∀ (l : List RouteResult) (k : Nat) (acc : String), k + l.length = n →
      (List.enumFrom k l).foldl
        (fun acc p =>
          acc ++ "\"" ++ p.2.Node.AttrName ++ "\":" ++ (p.2.Res.getD dfltResp).body ++
            (if p.1 < n - 1 then "," else "")) acc
      = acc ++ joinComma mergePiece l := by
  intro l
  induction l with
  | nil => intro k acc _; simp [List.enumFrom, joinComma, String.append_empty]
  | cons x t ih =>
    intro k acc hk
    cases t with
    | nil =>
      have hklt : ¬ (k < n - 1) := by
        simp at hk; omega
      simp [List.enumFrom, List.foldl_cons, hklt, joinComma, mergePiece,
        String.append_empty, String.append_assoc]
    | cons y t2 =>
      have hklt : k < n - 1 := by
        simp at hk; omega
      have hlen : (k + 1) + (y :: t2).length = n := by
        simp at hk ⊢; omega
      have ih2 := fun acc => ih (k + 1) acc hlen
      show ((k, x) :: List.enumFrom (k + 1) (y :: t2)).foldl _ acc = _
      rw [List.foldl_cons]
      dsimp only
      rw [if_pos hklt, ih2, joinComma_cons2]
      simp [mergePiece, String.append_assoc]

theorem select_eq_last_match (r : RouteTable) (req : Req) :
    r.Select req =
      ((r.apis.reverse.find? (fun p => p.2.matchesReq req)).map
        (fun p => apiRouteResults r req p.2)).getD [] :=
  foldl_if_find_last (fun (p : String × Gateway.API) => p.2.matchesReq req)
    (fun p => apiRouteResults r req p.2) r.apis []

/-- C9: deserializing the serialization of a Server restores every serialized
field, except that a zero checkTimeout is replaced by the default of 3
seconds. -/
theorem unMarshal_marshal_roundtrip (s : Server) :
    (UnMarshalServer s.Marshal).Schema = s.Schema ∧
    (UnMarshalServer s.Marshal).Addr = s.Addr ∧
    (UnMarshalServer s.Marshal).External = s.External ∧
    (UnMarshalServer s.Marshal).CheckPath = s.CheckPath ∧
    (UnMarshalServer s.Marshal).CheckResponsedBody = s.CheckResponsedBody ∧
    (UnMarshalServer s.Marshal).CheckDuration = s.CheckDuration ∧
    (UnMarshalServer s.Marshal).Status = s.Status ∧
    (UnMarshalServer s.Marshal).MaxQPS = s.MaxQPS ∧
    (UnMarshalServer s.Marshal).HalfToOpenSeconds = s.HalfToOpenSeconds ∧
    (UnMarshalServer s.Marshal).HalfTrafficRate = s.HalfTrafficRate ∧
    (UnMarshalServer s.Marshal).HalfToOpenSucceedRate = s.HalfToOpenSucceedRate ∧
    (UnMarshalServer s.Marshal).HalfToOpenCollectSeconds = s.HalfToOpenCollectSeconds ∧
    (UnMarshalServer s.Marshal).OpenToCloseFailureRate = s.OpenToCloseFailureRate ∧
    (UnMarshalServer s.Marshal).OpenToCloseCollectSeconds = s.OpenToCloseCollectSeconds ∧
    (UnMarshalServer s.Marshal).BindClusters = s.BindClusters ∧
    (UnMarshalServer s.Marshal).CheckTimeout =
      (if s.CheckTimeout = 0 then DefaultCheckTimeoutInSeconds else s.CheckTimeout) := by
  unfold UnMarshalServer Server.Marshal
  by_cases h : s.CheckTimeout = 0 <;> simp [h]

theorem failN_useCheckDuration (s : Server) (m : Int) (hm : 0 ≤ m) :
    ∀ (N k : Nat), k ≤ N → s.useCheckDuration = 2 ^ N * m →
      3 ^ k * (2 ^ N * m) < 2 ^ 63 →
      (s.failN k).useCheckDuration = 2 ^ (N - k) * 3 ^ k * m := by
  intro N k
  induction k with
  | zero => intro _ h _; simpa using h
  | succ k ih =>
    intro hk h hb
    have hk1 : k ≤ N := Nat.le_of_succ_le hk
    have hmono : (3:Int) ^ k * (2 ^ N * m) ≤ 3 ^ (k + 1) * (2 ^ N * m) := by
      have h3 : (3:Int) ^ k ≤ 3 ^ (k + 1) :=
        pow_le_pow_right₀ (by norm_num) (Nat.le_succ k)
      have hnn : (0:Int) ≤ 2 ^ N * m := by positivity
      exact mul_le_mul_of_nonneg_right h3 hnn
    have hu := ih hk1 h (lt_of_le_of_lt hmono hb)
    have hy : (s.failN k).useCheckDuration = 2 * (2 ^ (N - (k + 1)) * 3 ^ k * m) := by
      rw [hu, show N - k = (N - (k + 1)) + 1 by omega, pow_succ]
      ring
    have hval : (0:Int) ≤ 2 ^ (N - (k + 1)) * 3 ^ (k + 1) * m := by positivity
    have hlt : (2:Int) ^ (N - (k + 1)) * 3 ^ (k + 1) * m < 2 ^ 63 := by
      have h2le : (2:Int) ^ (N - (k + 1)) ≤ 2 ^ N :=
        pow_le_pow_right₀ (by norm_num) (by omega)
      have hstep := mul_le_mul_of_nonneg_right h2le
        (by positivity : (0:Int) ≤ 3 ^ (k + 1) * m)
      have hmul : (2:Int) ^ (N - (k + 1)) * 3 ^ (k + 1) * m ≤ 3 ^ (k + 1) * (2 ^ N * m) :=
        calc (2:Int) ^ (N - (k + 1)) * 3 ^ (k + 1) * m
            = 2 ^ (N - (k + 1)) * (3 ^ (k + 1) * m) := by ring
          _ ≤ 2 ^ N * (3 ^ (k + 1) * m) := hstep
          _ = 3 ^ (k + 1) * (2 ^ N * m) := by ring
      exact lt_of_le_of_lt hmul hb
    have hsum : 2 * (2 ^ (N - (k + 1)) * 3 ^ k * m) + 2 ^ (N - (k + 1)) * 3 ^ k * m
        = 2 ^ (N - (k + 1)) * 3 ^ (k + 1) * m := by
      rw [pow_succ]
      ring
    show ((s.failN k).fail).useCheckDuration = _
    rw [Server.fail]
    dsimp only
    rw [hy, Int.mul_tdiv_cancel_left _ (by norm_num), hsum,
      wrap64_eq_self _ (le_trans (by norm_num) hval) hlt]

theorem failN_checkFailCount (s : Server) :
    ∀ k : Nat, 0 ≤ s.checkFailCount → s.checkFailCount + (k : Int) < 2 ^ 63 →
      (s.failN k).checkFailCount = s.checkFailCount + k := by
  intro k
  induction k with
  | zero => intro _ _; simp [Server.failN]
  | succ k ih =>
    intro h0 hb
    have hcast : ((k + 1 : Nat) : Int) = (k : Int) + 1 := by push_cast; ring
    rw [hcast] at hb
    have hk0 : (0:Int) ≤ (k : Int) := Int.natCast_nonneg k
    have ihv := ih h0 (by omega)
    have hx0 : (0:Int) ≤ s.checkFailCount + (k : Int) + 1 := by omega
    have hxlt : s.checkFailCount + (k : Int) + 1 < 2 ^ 63 := by omega
    show ((s.failN k).fail).checkFailCount = _
    rw [Server.fail]
    dsimp only
    rw [ihv, wrap64_eq_self (s.checkFailCount + (k : Int) + 1)
      (le_trans (by norm_num) hx0) hxlt, hcast]
    ring

/-- C6 (amended): the update rule is
useCheckDuration += useCheckDuration/2 with Go truncating division and
wrapping 64-bit arithmetic. When the initial interval d0 equals 2 to the N
times m with m nonnegative, k is at most N and no overflow occurs
(3 to the k times d0 below 2 to the 63), k consecutive failures leave the
interval at exactly (3/2) to the k times d0, stated multiplicatively, and
the failure count grows by one per failure while it stays in range; the
sequence deviates from the exact geometric one as soon as truncation
occurs, and can also deviate by wrap-around on overflow. -/
theorem failN_geometric (s : Server) (m : Int) (N k : Nat)
    (hd : s.useCheckDuration = 2 ^ N * m) (hm : 0 ≤ m) (hk : k ≤ N)
    (hbound : 3 ^ k * s.useCheckDuration < 2 ^ 63)
    (hc0 : 0 ≤ s.checkFailCount)
    (hcb : s.checkFailCount + (k : Int) < 2 ^ 63) :
    2 ^ k * (s.failN k).useCheckDuration = 3 ^ k * s.useCheckDuration ∧
    (s.failN k).checkFailCount = s.checkFailCount + k := by
  refine ⟨?_, failN_checkFailCount s k hc0 hcb⟩
  rw [hd] at hbound
  rw [failN_useCheckDuration s m hm N k hk hd hbound, hd]
  have hNk : k + (N - k) = N := by omega
  calc (2:Int) ^ k * (2 ^ (N - k) * 3 ^ k * m)
      = 2 ^ (k + (N - k)) * 3 ^ k * m := by rw [pow_add]; ring
    _ = 3 ^ k * (2 ^ N * m) := by rw [hNk]; ring

/-- Server with a configured five-second check interval, as AddNewServer
leaves it before any check. -/
def svrD5 : Server :=
  { Addr := "s5", CheckDuration := 5, useCheckDuration := 5 }

/-- C6 counterexample: with d0 = 5, one failure leaves the interval at
5 + 5/2 = 7 (Go truncating division), not the exact 1.5 times d0 = 7.5;
multiplicatively, 2 times the new interval is 14, not 3 times d0 = 15. -/
theorem fail_not_exact_geometric :
    (svrD5.failN 1).useCheckDuration = 7 ∧
    2 * (svrD5.failN 1).useCheckDuration ≠ 3 * svrD5.useCheckDuration := by
  constructor <;> decide

/-- C6 witness: with d0 = 8 = 2 to the 3rd, two failures give interval 18 and
2 squared times 18 equals 3 squared times 8, overflow-free. -/
theorem failN_geometric_witness :
    2 ^ 2 * (({ Addr := "s8", CheckDuration := 8, useCheckDuration := 8 : Server }).failN 2).useCheckDuration
      = 3 ^ 2 * ({ Addr := "s8", CheckDuration := 8, useCheckDuration := 8 : Server }).useCheckDuration ∧
    (({ Addr := "s8", CheckDuration := 8, useCheckDuration := 8 : Server }).failN 2).checkFailCount
      = ({ Addr := "s8", CheckDuration := 8, useCheckDuration := 8 : Server }).checkFailCount + 2 :=
  failN_geometric { Addr := "s8", CheckDuration := 8, useCheckDuration := 8 } 1 3 2
    (by norm_num) (by norm_num) (by norm_num) (by norm_num) (by norm_num) (by norm_num)

/-- Discriminator for the Except results of the mutators. -/
def isOkE {ε α : Type} : Except ε α → Bool
  | Except.ok _ => true
  | Except.error _ => false

/-- Request used by the concrete tables below. -/
def reqAny : Req := { method := "GET", uri := "/p" }

/-- API whose single node carries attribute first; it matches every
request. -/
def apiFirst : Gateway.API :=
  { URL := "/p", Method := "GET",
    Nodes := [ { ClusterName := "c1", AttrName := "first" } ],
    matchesReq := fun _ => true }

/-- API whose single node carries attribute second; it matches every
request. -/
def apiSecond : Gateway.API :=
  { URL := "/p2", Method := "GET",
    Nodes := [ { ClusterName := "c1", AttrName := "second" } ],
    matchesReq := fun _ => true }

/-- Table holding two APIs that both match reqAny. -/
def rtTwoMatching : RouteTable :=
  { apis := [ ("/p-GET", apiFirst), ("/p2-GET", apiSecond) ] }

/-- C3 (amended): Select returns the results built from the last matching API
in iteration order; the loop in the source never breaks, so each later
matching API overwrites the results of the earlier ones, which are not
returned. -/
theorem select_last_match_wins (r : RouteTable) (req : Req) (p : String × Gateway.API)
    (h : r.apis.reverse.find? (fun q => q.2.matchesReq req) = some p) :
    r.Select req = apiRouteResults r req p.2 := by
  rw [select_eq_last_match, h]
  rfl

/-- C3 witness: on the two-API table the last API in iteration order provides
the results of Select. -/
theorem select_last_match_wins_witness :
    rtTwoMatching.Select reqAny = apiRouteResults rtTwoMatching reqAny apiSecond :=
  select_last_match_wins rtTwoMatching reqAny ("/p2-GET", apiSecond) rfl

/-- Attribute name of the second API, used to read Select results back. -/
def attrSecond : String := "second"

/-- C3 counterexample: both APIs of the table match the request, yet Select
returns the results of the second (later) API, so the first matching API
does not win. -/
theorem select_first_match_fails :
    (rtTwoMatching.apis.map (fun p => p.2.matchesReq reqAny)) = [ true, true ] ∧
    (rtTwoMatching.Select reqAny).map (fun res => res.Node.AttrName) = [ attrSecond ] :=
  ⟨rfl, rfl⟩

/-- Server s1, up, used as the live backend of cluster c1. -/
def svrS1 : Server := { Addr := "s1", Status := Gateway.Status.Up }

/-- Node naming the absent cluster ghost. -/
def ghostNode : Node := { ClusterName := "ghost", AttrName := "g" }

/-- API whose single node names the absent cluster ghost; it matches every
request. -/
def apiGhost : Gateway.API :=
  { URL := "/g", Method := "GET", Nodes := [ ghostNode ],
    matchesReq := fun _ => true }

/-- Routing rule matching every request and redirecting to cluster c1. -/
def routeAll : Routing := { ID := "r1", ClusterName := "c1", Matches := fun _ => true }

/-- Table whose only API names the absent cluster ghost while a routing rule
redirects every request to the live cluster c1. -/
def rtGhostRouted : RouteTable :=
  { clusters := [ ("c1", { Name := "c1", svrs := [ "s1" ] }) ],
    svrs := [ ("s1", svrS1) ],
    apis := [ ("/g-GET", apiGhost) ],
    routings := [ ("r1", routeAll) ] }

/-- Table whose only API names the absent cluster ghost and that has no
routing rules. -/
def rtGhostOnly : RouteTable :=
  { clusters := [ ("c1", { Name := "c1", svrs := [ "s1" ] }) ],
    svrs := [ ("s1", svrS1) ],
    apis := [ ("/g-GET", apiGhost) ] }

/-- Result Select builds for the ghost node on rtGhostOnly. -/
def ghostRes : RouteResult := { API := apiGhost, Node := ghostNode }

/-- C1 (amended): when no routing rule matches the request and the server map
has no entry under the empty address (servers are keyed by their own
address), every Select result whose node names a cluster absent from the
cluster map carries no server, a selection miss; Select is total, so no
crash. Without the routing proviso the claim fails, since a matching
routing rule can redirect the node to a live cluster. -/
theorem select_missing_cluster_miss (r : RouteTable) (req : Req)
    (hrout : r.routings.find? (fun p => p.2.Matches req) = none)
    (hempty : assocFind r.svrs "" = none) :
    ∀ res ∈ r.Select req, assocFind r.clusters res.Node.ClusterName = none →
      res.Svr = none := by
  intro res hres hmiss
  rw [select_eq_last_match] at hres
  cases hfind : r.apis.reverse.find? (fun p => p.2.matchesReq req) with
  | none => rw [hfind] at hres; simp at hres
  | some p =>
    rw [hfind] at hres
    simp only [Option.map_some, Option.getD_some, apiRouteResults] at hres
    rcases List.mem_map.mp hres with ⟨node, _hnode, hres2⟩
    subst hres2
    dsimp only at hmiss ⊢
    simp only [RouteTable.selectServer, RouteTable.doSelectServer,
      RouteTable.selectClusterByRouting, hrout, hmiss, hempty]

/-- C1 witness: on the routing-free table the result for the node naming the
absent cluster carries no server. -/
theorem select_missing_cluster_miss_witness : ghostRes.Svr = none :=
  select_missing_cluster_miss rtGhostOnly reqAny rfl rfl ghostRes
    (by rw [show rtGhostOnly.Select reqAny = [ ghostRes ] from rfl]
        exact List.mem_singleton.mpr rfl) rfl

/-- C1 counterexample: the matched node names the absent cluster ghost, yet a
routing rule redirects the request to the live cluster c1 and Select
returns its server, not a miss. -/
theorem select_missing_cluster_not_always_miss :
    assocFind rtGhostRouted.clusters ghostNode.ClusterName = none ∧
    (rtGhostRouted.apis.map (fun p => p.2.Nodes)) = [ [ ghostNode ] ] ∧
    (rtGhostRouted.Select reqAny).map (fun res => res.Svr.isSome) = [ true ] :=
  ⟨rfl, rfl, rfl⟩

/-- API stored twice to probe AddNewAPI. -/
def apiDup : Gateway.API := { URL := "/p", Method := "GET", matchesReq := fun _ => true }

/-- C4 (code bug, failing case): adding the same API twice does not return
ErrAPIExists: the existence check reads key api.URL while the store writes
key getAPIKey api.URL api.Method, so the second AddNewAPI succeeds and
silently overwrites the stored API. UpdateAPI and DeleteAPI key the same
map by getAPIKey, so the check in AddNewAPI is the slip; AddNewServer and
DeleteServer do behave as the claim states. -/
theorem add_new_api_twice_not_exists :
    (match ({} : RouteTable).AddNewAPI apiDup with
     | Except.ok r1 => isOkE (r1.AddNewAPI apiDup)
     | Except.error _ => false) = true := rfl

theorem contains_filter_ne (l : List String) (a : String) :
    (l.filter (fun x => x != a)).contains a = false := by
  simp

/-- Server sd, up, bound to cluster c1, with a timer and analyzer state. -/
def svrDel : Server := { Addr := "sd", Status := Gateway.Status.Up }

/-- Table holding server sd bound to cluster c1, with analyzer state and a
check timer for sd. -/
def rtDel : RouteTable :=
  { clusters := [ ("c1", { Name := "c1", svrs := [ "sd" ] }) ],
    svrs := [ ("sd", svrDel) ],
    mapping := [ ("sd", [ "c1" ]) ],
    analysis := [ "sd" ],
    checkTimers := [ "sd" ] }

/-- Table rtDel after DeleteServer sd. -/
def rtDelAfter : RouteTable :=
  { clusters := [ ("c1", { Name := "c1", svrs := [] }) ],
    analysis := [ "sd" ] }

/-- C2 (amended): deleting a present server removes it from the server map,
cancels its health-check timer, and removes it from the active set of
every cluster its reverse-mapping entry lists, but leaves its analyzer
state in place: DeleteServer never touches the analyzer. -/
theorem delete_server_effects (r : RouteTable) (addr : String) (svr : Server)
    (h : assocFind r.svrs addr = some svr) :
    isOkE (r.DeleteServer addr) = true ∧
    ∀ r', r.DeleteServer addr = Except.ok r' →
      assocFind r'.svrs addr = none ∧
      r'.checkTimers.contains svr.Addr = false ∧
      (∀ p ∈ r'.clusters,
        ((assocFind r.mapping svr.Addr).getD []).contains p.1 = true →
          p.2.svrs.contains svr.Addr = false) ∧
      r'.analysis = r.analysis := by
  unfold RouteTable.DeleteServer
  rw [h]
  refine ⟨rfl, ?_⟩
  intro r' hr'
  cases hr'
  refine ⟨assocFind_erase_self r.svrs addr, contains_filter_ne r.checkTimers svr.Addr,
    ?_, rfl⟩
  intro p hp hb
  rcases List.mem_map.mp hp with ⟨q, _hq, rfl⟩
  have hA : svr.stopCheck.Addr = svr.Addr := rfl
  rw [hA] at hb ⊢
  by_cases hq1 : (((assocFind r.mapping svr.Addr).getD []).contains q.1) = true
  · rw [if_pos hq1] at hb ⊢
    exact contains_filter_ne _ _
  · rw [if_neg hq1] at hb
    exact absurd hb hq1

/-- C2 witness: deleting sd from the concrete table succeeds, removes sd from
the server map and from cluster c1, cancels its timer, and the analyzer
entry for sd remains. -/
theorem delete_server_effects_witness :
    assocFind rtDelAfter.svrs "sd" = none ∧
    rtDelAfter.checkTimers.contains "sd" = false ∧
    rtDelAfter.analysis = rtDel.analysis :=
  ⟨((delete_server_effects rtDel "sd" svrDel rfl).2 rtDelAfter rfl).1,
   ((delete_server_effects rtDel "sd" svrDel rfl).2 rtDelAfter rfl).2.1,
   ((delete_server_effects rtDel "sd" svrDel rfl).2 rtDelAfter rfl).2.2.2⟩

/-- C2 counterexample: after DeleteServer sd the analyzer state of sd is still
present, so the analyzer state is not erased as the claim requires. -/
theorem delete_server_keeps_analysis :
    (match rtDel.DeleteServer "sd" with
     | Except.ok r' => r'.analysis.contains "sd"
     | Except.error _ => false) = true := rfl

/-- Server whose status is Up and already was Up before the last transition,
so a successful check leaves the status unchanged. -/
def svrChk : Server :=
  { Addr := "s1", Status := Gateway.Status.Up, prevStatus := Gateway.Status.Up }

/-- Table holding svrChk under its address. -/
def rtChk : RouteTable := { svrs := [ ("s1", svrChk) ] }

/-- C5 (amended): every completed health check sends exactly one event, the
checked server, to the changed-channel, whether or not the status changed;
it is the receiving changed worker that alters cluster membership only
when the emitted status actually changed. -/
theorem check_always_emits (r : RouteTable) (addr : String) (probe : Bool) (svr : Server)
    (h : assocFind r.svrs addr = some svr) :
    (r.check addr probe).isSome = true ∧
    ∀ pr, r.check addr probe = some pr →
      pr.2.length = 1 ∧
      ∀ s ∈ pr.2, s.statusChanged = false → pr.1.changedStep s = pr.1 := by
  unfold RouteTable.check
  rw [h]
  dsimp only
  by_cases hstop : svr.checkStopped = true
  · rw [if_neg (by simp [hstop])]
    refine ⟨rfl, ?_⟩
    intro pr hpr
    cases hpr
    refine ⟨rfl, ?_⟩
    intro s hs hsc
    unfold RouteTable.changedStep
    rw [hsc]
    simp
  · rw [if_pos (by simp [Bool.not_eq_true] at hstop ⊢; exact hstop)]
    refine ⟨rfl, ?_⟩
    intro pr hpr
    cases hpr
    refine ⟨rfl, ?_⟩
    intro s hs hsc
    unfold RouteTable.changedStep
    rw [hsc]
    simp

/-- C5 witness: the concrete check on svrChk completes (and, per the theorem,
emits its one event even though the status stays Up). -/
theorem check_always_emits_witness :
    (rtChk.check "s1" true).isSome = true ∧
    (match rtChk.check "s1" true with
     | some pr => pr.2.all (fun s => !s.statusChanged)
     | none => false) = true :=
  ⟨(check_always_emits rtChk "s1" true svrChk rfl).1, rfl⟩

/-- C5 counterexample: a successful check of a server that is already Up
leaves the status unchanged, yet the server is still sent to the
changed-channel: the event list is nonempty and its sole event reports no
status change. -/
theorem check_emits_without_change :
    (match rtChk.check "s1" true with
     | some pr => decide (pr.2.length = 1) && pr.2.all (fun s => !s.statusChanged)
     | none => false) = true := rfl

/-- C10: AddNewServer registers a fresh server with prevStatus Down and the
circuit open, regardless of the status, prevStatus or circuit fields of
the input; its final status is Up immediately when the server is external,
and otherwise Up exactly when the first health check succeeded and Down
when it failed. -/
theorem add_new_server_registers (r : RouteTable) (svr : Server) (probe : Bool)
    (h : assocFind r.svrs svr.Addr = none) :
    isOkE (r.AddNewServer svr probe) = true ∧
    ∀ r', r.AddNewServer svr probe = Except.ok r' →
      ∀ s', assocFind r'.svrs svr.Addr = some s' →
        s'.prevStatus = Status.Down ∧
        s'.circuit = Circuit.CircuitOpen ∧
        s'.Status = (if svr.External then Status.Up
                     else if probe then Status.Up else Status.Down) := by
  unfold RouteTable.AddNewServer
  rw [h]
  refine ⟨rfl, ?_⟩
  intro r' hr'
  cases hr'
  intro s' hs'
  cases hE : svr.External <;> cases hP : probe <;>
    simp only [hE, hP, Bool.not_false, Bool.not_true, if_true, if_false,
      addToCheckServer, Server.init, Server.changeTo, Server.reset, Server.fail,
      Bool.false_eq_true, Bool.true_eq_false] at hs' ⊢ <;>
    rw [assocFind_insert_self] at hs' <;>
    cases hs' <;> simp

/-- Fresh external server carrying adversarial status fields. -/
def svrNewExt : Server :=
  { Addr := "sx", External := true, Status := Gateway.Status.Up,
    prevStatus := Gateway.Status.Up, circuit := Circuit.CircuitClose }

/-- C10 witness: registering the external server svrNewExt on the empty
table succeeds. -/
theorem add_new_server_registers_witness :
    isOkE (({} : RouteTable).AddNewServer svrNewExt true) = true :=
  (add_new_server_registers {} svrNewExt true rfl).1

/-- C8: a backend error whose text begins with the prefix request canceled
skips the post-error filters, so the failure counter that the ANALYSIS
PostErr hook would bump stays unchanged for that request. -/
theorem cancel_skips_post_err (result : RouteResult) (res : Option Resp) (e : String)
    (failures : Nat) (h : hasPrefixStr ErrPrefixRequestCancel e = true) :
    (doProxyAfterCall result (some e) res).2 = false ∧
    doProxyFailuresAfter failures (doProxyAfterCall result (some e) res).2 = failures := by
  have h2 : (doProxyAfterCall result (some e) res).2 = false := by
    unfold doProxyAfterCall
    simp [h]
  exact ⟨h2, by rw [h2]; rfl⟩

/-- Error text of a canceled backend call. -/
def cancelErrText : String := "request canceled: connection closed"

/-- C8 witness: with a concrete canceled-request error text no post-error
filter runs and the failure count 5 stays 5. -/
theorem cancel_skips_post_err_witness :
    (doProxyAfterCall ghostRes (some cancelErrText) none).2 = false ∧
    doProxyFailuresAfter 5 (doProxyAfterCall ghostRes (some cancelErrText) none).2 = 5 :=
  cancel_skips_post_err ghostRes none cancelErrText 5 (by decide)

/-- C7: a merge request (more than one node) whose backend calls all
succeeded produces status 200, the merge content type
application/json; charset=utf-8, the body equal to the JSON object over
the attribute names and raw backend bodies, and each backend response
header set is stripped of Content-Length, Content-Type and Date before
being copied onto the aggregate response, whose copy semantics keep the
last copy, with the content type then set on top. -/
theorem merge_response_ok (results : List RouteResult)
    (hlen : 2 ≤ results.length)
    (hok : results.all (fun r => r.Err.isNone && r.Res.isSome) = true) :
    ReverseProxyHandlerRespond results =
      { statusCode := 200,
        headers := headerSet
          (((results.getLast?).map
            (fun r => stripMergeHeaders (r.Res.getD dfltResp).headers)).getD [])
          "Content-Type" MergeContentType,
        body := "\x7b" ++ mergeSpecBody results ++ "\x7d" } := by
  have hne : results.isEmpty = false := by
    cases results <;> simp at hlen ⊢
  have hmerge : decide (1 < results.length) = true := by
    simp; omega
  have hfind : results.find? (fun r => r.Err.isSome) = none := by
    rw [List.find?_eq_none]
    intro r hr
    have hall := List.all_eq_true.mp hok r hr
    simp only [Bool.and_eq_true] at hall
    simp [Option.isNone_iff_eq_none.mp hall.1]
  unfold ReverseProxyHandlerRespond
  rw [hne, hfind, hmerge]
  dsimp only
  simp only [Bool.not_true, Bool.false_eq_true, if_false]
  unfold mergeCompose
  simp only [headerCopyTo]
  rw [foldl_replace_last (fun r => stripMergeHeaders (r.Res.getD dfltResp).headers)
    results []]
  rw [show results.enum = List.enumFrom 0 results from rfl]
  rw [merge_body_fold results.length results 0 "\x7b" (by simp)]
  rfl

/-- Completed result of the first merge node: attribute a, body 1, a
Content-Type header to be stripped and one header to survive. -/
def resA : RouteResult :=
  { API := apiFirst, Node := { ClusterName := "c1", AttrName := "a" },
    Res := some { statusCode := 200,
                  headers := [ ("Content-Type", "text/plain"), ("X-A", "one") ],
                  body := "1" } }

/-- Completed result of the second merge node: attribute b, body 2, a Date
header to be stripped and one header to survive. -/
def resB : RouteResult :=
  { API := apiSecond, Node := { ClusterName := "c2", AttrName := "b" },
    Res := some { statusCode := 200,
                  headers := [ ("Date", "today"), ("X-B", "two") ],
                  body := "2" } }

/-- C7 witness: merging the two concrete clean results yields status 200, the
merge content type over the stripped last headers, and the two-member JSON
object body. -/
theorem merge_response_ok_witness :
    ReverseProxyHandlerRespond [ resA, resB ] =
      { statusCode := 200,
        headers := headerSet
          ((([ resA, resB ].getLast?).map
            (fun r => stripMergeHeaders (r.Res.getD dfltResp).headers)).getD [])
          "Content-Type" MergeContentType,
        body := "\x7b" ++ mergeSpecBody [ resA, resB ] ++ "\x7d" } :=
  merge_response_ok [ resA, resB ] (by decide) rfl

end Gateway
